import Mathlib

/-!
Verification development for the tool layer of a chat backend
(`tools.js`): a MySQL query gateway (`run_mysql_query`) and a
text-to-speech WAV file encoder (`generate_and_save_audio`).

The JavaScript tool functions are shallowly embedded as Lean functions.
External collaborators (database driver, speech API, filesystem) are
modelled as environments recording the outcome of each external call;
their library primitives (base64 decoding by `Buffer.from`, UUID
generation) are abstracted to the values they produce, which the
environment supplies.  Machine numbers are modelled as `Nat`, with the
explicit `% 2^32` / `% 2^16` wraps of `DataView.setUint32` /
`setUint16`, and `ℚ` where JavaScript arithmetic produces non-integer
values (`bitsPerSample / 8`).  `String.prototype.toLowerCase` is
modelled on the ASCII range, which coincides with its behaviour on all
characters relevant to the keyword checks under study.
-/

/-- Whitespace and line-terminator characters removed by
`String.prototype.trim` (ECMA-262 WhiteSpace and LineTerminator). -/
def jsIsWhitespace (c : Char) : Bool :=
  c = ' ' || c = '\t' || c = '\n' || c = '\r' ||
  c.toNat = 11 || c.toNat = 12 ||
  c.toNat = 0xa0 || c.toNat = 0x1680 ||
  (0x2000 ≤ c.toNat && c.toNat ≤ 0x200a) ||
  c.toNat = 0x2028 || c.toNat = 0x2029 ||
  c.toNat = 0x202f || c.toNat = 0x205f ||
  c.toNat = 0x3000 || c.toNat = 0xfeff

/-- Model of `String.prototype.trim`: drop leading and trailing
whitespace. -/
def jsTrim (s : String) : String :=
  String.mk (((s.data.dropWhile jsIsWhitespace).reverse.dropWhile jsIsWhitespace).reverse)

/-- ASCII lowercasing of one character, as `String.prototype.toLowerCase`
acts on the ASCII range. -/
def jsLowerChar (c : Char) : Char :=
  if 'A' ≤ c ∧ c ≤ 'Z' then Char.ofNat (c.toNat + 32) else c

/-- Model of `String.prototype.toLowerCase` (ASCII range). -/
def jsToLower (s : String) : String :=
  String.mk (s.data.map jsLowerChar)

/-- Model of `String.prototype.startsWith`: the characters of `pre` are
a prefix of the characters of `s`. -/
def jsStartsWith (s pre : String) : Bool :=
  pre.data.isPrefixOf s.data

/-- A JavaScript error value as thrown by the mysql2 driver: an object
with a `code` and a `message`. -/
structure JsError where
  code : String
  message : String
deriving DecidableEq, Repr

/-- How one invocation of an async tool function terminates: an ordinary
return of a string, or a rejection with a thrown error. -/
inductive JsOutcome where
  | ret (s : String)
  | thrown (e : JsError)
deriving DecidableEq, Repr

/-- Behaviour of the database collaborator for a single
`run_mysql_query` call: whether `mysql.createConnection` throws, what
`connection.execute` yields in the insert and in the row-returning
mode, and whether `connection.end` throws. -/
structure DbEnv where
  connectError : Option JsError
  insertOutcome : Except JsError (Nat × Nat)
  queryOutcome : Except JsError (List (List (String × String)))
  endError : Option JsError
deriving Repr

/-- Observable side effects of one `run_mysql_query` call: how many
times a connection was requested and how many statements were handed to
`connection.execute`. -/
structure DbTrace where
  connectCalls : Nat
  execCalls : Nat
deriving DecidableEq, Repr

/-- The refusal string of the allow-list check (tools.js line 24). -/
def allowRefusalMsg : String :=
  "Only SELECT, DESCRIBE, INSERT and SHOW queries are allowed for security reasons."

/-- The empty-result string (tools.js line 47). -/
def noResultsMsg : String :=
  "Query executed successfully but returned no results. The table might be empty or your conditions did not match any records."

/-- Success string of the insert branch for a positive affected-row
count (tools.js line 37). -/
def insertOkMsg (affectedRows insertId : Nat) : String :=
  "Query executed successfully. " ++ toString affectedRows ++ " row(s) affected. Insert ID: " ++ toString insertId

/-- Success string of the insert branch for zero affected rows
(tools.js line 39). -/
def insertZeroMsg : String :=
  "Query executed successfully but no rows were affected."

/-- The catch block of `run_mysql_query` (tools.js lines 73-82): map two
recognised driver error codes to fixed guidance strings, all other
errors to a generic string embedding the error message. -/
def catchHandler (e : JsError) : String :=
  if e.code = "ER_NO_SUCH_TABLE" then
    "Table not found. Please check the table name. Available tables might include: games, cards etc."
  else if e.code = "ER_BAD_FIELD_ERROR" then
    "Column not found. Please check your column names. Use DESCRIBE tablename to see available columns."
  else
    "Database error: " ++ e.message ++ ". Please check your SQL syntax."

/-- One fetched row rendered as in tools.js lines 53-57: the zero-based
map index `index` is printed as `index + 1`, and the column/value pairs
are comma-joined inside braces. -/
def formatRow (index : Nat) (row : List (String × String)) : String :=
  "Row " ++ toString (index + 1) ++ ": \x7b" ++
    String.intercalate ", " (row.map (fun kv => kv.1 ++ ": " ++ kv.2)) ++ "\x7d"

/-- Rendering of a fetched result set (tools.js lines 46-71): empty set,
at most ten rows in full, or the first five of a larger set plus an
omission count. -/
def renderRows (rows : List (List (String × String))) : String :=
  if rows.length = 0 then
    noResultsMsg
  else if rows.length ≤ 10 then
    "Found " ++ toString rows.length ++ " record(s):\n" ++
      String.intercalate "\n" (rows.enum.map (fun p => formatRow p.1 p.2))
  else
    "Found " ++ toString rows.length ++ " record(s). Showing first 5:\n" ++
      String.intercalate "\n" ((rows.take 5).enum.map (fun p => formatRow p.1 p.2)) ++
      "\n... and " ++ toString (rows.length - 5) ++ " more records."

/-- JavaScript `finally` block of `run_mysql_query` (tools.js lines
83-87): when a connection was opened, `connection.end()` is awaited; if
it rejects, that error replaces the pending completion of the call. -/
def applyFinally (opened : Bool) (endError : Option JsError) (o : JsOutcome) : JsOutcome :=
  if opened then
    match endError with
    | some e => JsOutcome.thrown e
    | none => o
  else o

/-- Shallow embedding of the tool body of `run_mysql_query` (tools.js
lines 16-88) against a database environment, returning the call's
outcome and the trace of database interactions. -/
def run_mysql_query (env : DbEnv) (query : String) : JsOutcome × DbTrace :=
  let cleanQuery := jsTrim query
  let lowered := jsToLower cleanQuery
  if !(jsStartsWith lowered "select") && !(jsStartsWith lowered "describe") &&
     !(jsStartsWith lowered "insert") && !(jsStartsWith lowered "show") then
    (JsOutcome.ret allowRefusalMsg, ⟨0, 0⟩)
  else
    match env.connectError with
    | some e => (JsOutcome.ret (catchHandler e), ⟨1, 0⟩)
    | none =>
      let body : JsOutcome :=
        if jsStartsWith lowered "insert" then
          match env.insertOutcome with
          | Except.error e => JsOutcome.ret (catchHandler e)
          | Except.ok (affectedRows, insertId) =>
            if affectedRows > 0 then JsOutcome.ret (insertOkMsg affectedRows insertId)
            else JsOutcome.ret insertZeroMsg
        else
          match env.queryOutcome with
          | Except.error e => JsOutcome.ret (catchHandler e)
          | Except.ok rows => JsOutcome.ret (renderRows rows)
      (applyFinally true env.endError body, ⟨1, 1⟩)

/-- The allow-list condition of tools.js lines 20-23, as a positive
predicate: the lowered trimmed statement starts with one of the four
allowed keywords. -/
def allowedStart (s : String) : Bool :=
  jsStartsWith s "select" || jsStartsWith s "describe" ||
  jsStartsWith s "insert" || jsStartsWith s "show"

/-- Truncation of a rational toward zero, the first step of the
ECMAScript ToUint32 / ToUint16 conversions applied by
`DataView.setUint32` and `DataView.setUint16`. -/
def ratTrunc (q : ℚ) : ℤ :=
  if q < 0 then -(⌊-q⌋) else ⌊q⌋

/-- ECMAScript ToUint32 / ToUint16 of a (finite, non-NaN) number:
truncate toward zero, then reduce modulo `m` (`m` is `2 ^ 32` or
`2 ^ 16`). -/
def jsTruncMod (q : ℚ) (m : Nat) : Nat :=
  ((ratTrunc q) % (m : ℤ)).toNat

/-- One byte store into an `ArrayBuffer` modelled as a function from
offsets to byte values (a fresh `ArrayBuffer` is zero-initialised). -/
def dvSet8 (b : Nat → Nat) (i v : Nat) : Nat → Nat :=
  fun j => if j = i then v else b j

/-- Model of `DataView.setUint32(off, v, false)` (big-endian) for an
integer value already in `Nat`. -/
def dvSetUint32BE (b : Nat → Nat) (off v : Nat) : Nat → Nat :=
  dvSet8 (dvSet8 (dvSet8 (dvSet8 b off (v % 4294967296 / 16777216 % 256))
    (off + 1) (v % 4294967296 / 65536 % 256)) (off + 2) (v % 4294967296 / 256 % 256))
    (off + 3) (v % 4294967296 % 256)

/-- Model of `DataView.setUint32(off, v, true)` (little-endian) for an
integer value already in `Nat`. -/
def dvSetUint32LE (b : Nat → Nat) (off v : Nat) : Nat → Nat :=
  dvSet8 (dvSet8 (dvSet8 (dvSet8 b off (v % 4294967296 % 256))
    (off + 1) (v % 4294967296 / 256 % 256)) (off + 2) (v % 4294967296 / 65536 % 256))
    (off + 3) (v % 4294967296 / 16777216 % 256)

/-- Model of `DataView.setUint16(off, v, true)` (little-endian) for an
integer value already in `Nat`. -/
def dvSetUint16LE (b : Nat → Nat) (off v : Nat) : Nat → Nat :=
  dvSet8 (dvSet8 b off (v % 65536 % 256)) (off + 1) (v % 65536 / 256 % 256)

/-- Model of `DataView.setUint32(off, q, true)` for a JavaScript number
that may be non-integral: ToUint32 first, then the little-endian store. -/
def dvSetUint32LEQ (b : Nat → Nat) (off : Nat) (q : ℚ) : Nat → Nat :=
  dvSetUint32LE b off (jsTruncMod q 4294967296)

/-- Model of `DataView.setUint16(off, q, true)` for a JavaScript number
that may be non-integral: ToUint16 first, then the little-endian store. -/
def dvSetUint16LEQ (b : Nat → Nat) (off : Nat) (q : ℚ) : Nat → Nat :=
  dvSetUint16LE b off (jsTruncMod q 65536)

/-- The 44-byte WAV header of `generate_and_save_audio` (tools.js lines
151-177) as a function from offset to byte value, mirroring the
sequence of `DataView` stores on a zeroed `ArrayBuffer(44)`.
`bytesPerSample`, `blockAlign` and `byteRate` are computed in JavaScript
number arithmetic, hence modelled in `ℚ`. -/
def wavHeaderFun (sampleRate bitsPerSample dataSize : Nat) : Nat → Nat :=
  let numChannels : Nat := 1
  let bytesPerSample : ℚ := (bitsPerSample : ℚ) / 8
  let blockAlign : ℚ := (numChannels : ℚ) * bytesPerSample
  let byteRate : ℚ := (sampleRate : ℚ) * blockAlign
  let chunkSize : Nat := 36 + dataSize
  let b0 : Nat → Nat := fun _ => 0
  let b1 := dvSetUint32BE b0 0 0x52494646
  let b2 := dvSetUint32LE b1 4 chunkSize
  let b3 := dvSetUint32BE b2 8 0x57415645
  let b4 := dvSetUint32BE b3 12 0x666d7420
  let b5 := dvSetUint32LE b4 16 16
  let b6 := dvSetUint16LE b5 20 1
  let b7 := dvSetUint16LE b6 22 numChannels
  let b8 := dvSetUint32LE b7 24 sampleRate
  let b9 := dvSetUint32LEQ b8 28 byteRate
  let b10 := dvSetUint16LEQ b9 32 blockAlign
  let b11 := dvSetUint16LE b10 34 bitsPerSample
  let b12 := dvSetUint32BE b11 36 0x64617461
  let b13 := dvSetUint32LE b12 40 dataSize
  b13

/-- The 44 bytes of the WAV header, in file order. -/
def wavHeaderBytes (sampleRate bitsPerSample dataSize : Nat) : List Nat :=
  (List.range 44).map (wavHeaderFun sampleRate bitsPerSample dataSize)

/-- The little-endian 32-bit value stored at byte offset `off`. -/
def leUint32At (l : List Nat) (off : Nat) : Nat :=
  l.getD off 0 + 256 * l.getD (off + 1) 0 +
  65536 * l.getD (off + 2) 0 + 16777216 * l.getD (off + 3) 0

/-- The little-endian 16-bit value stored at byte offset `off`. -/
def leUint16At (l : List Nat) (off : Nat) : Nat :=
  l.getD off 0 + 256 * l.getD (off + 1) 0

/-- First match of the regular expressions `/rate=(\d+)/` and
`/audio\/L(\d+)/` of tools.js lines 147-148: scan for the first
position where the literal pattern `pat` is followed by at least one
ASCII digit, and capture the maximal digit run after it. -/
def matchCapture (pat : List Char) : List Char → Option (List Char)
  | [] => none
  | c :: rest =>
    if pat.isPrefixOf (c :: rest) then
      let ds := ((c :: rest).drop pat.length).takeWhile Char.isDigit
      if ds = [] then matchCapture pat rest else some ds
    else matchCapture pat rest

/-- Model of `parseInt(_, 10)` on a non-empty ASCII digit string. -/
def natOfDigits (ds : List Char) : Nat :=
  ds.foldl (fun n c => 10 * n + (c.toNat - 48)) 0

/-- Sample-rate derivation of tools.js line 147:
`parseInt(mimeType.match(/rate=(\d+)/)?.[1] || 24000, 10)`. -/
def deriveSampleRate (mime : String) : Nat :=
  match matchCapture "rate=".data mime.data with
  | some ds => natOfDigits ds
  | none => 24000

/-- Bit-depth derivation of tools.js line 148:
`parseInt(mimeType.match(/audio\/L(\d+)/)?.[1] || 16, 10)`. -/
def deriveBits (mime : String) : Nat :=
  match matchCapture "audio/L".data mime.data with
  | some ds => natOfDigits ds
  | none => 16

/-- Behaviour of the external collaborators for one
`generate_and_save_audio` call: whether `fs.mkdir` throws, whether the
`fetch`/`response.json()` pair throws, the audio payload of the first
response part (`none` models a missing or empty `inlineData.data`,
`some pcm` the bytes produced by base64-decoding it), the declared
`inlineData.mimeType`, the identifier produced by `uuidv4()`, and
whether `fs.writeFile` throws. -/
structure TtsEnv where
  mkdirError : Option String
  fetchError : Option String
  audioData : Option (List Nat)
  mimeType : Option String
  uuid : String
  writeError : Option String
deriving Repr

/-- Result of one `generate_and_save_audio` call: the returned string
and the file write that was performed, if any (path and bytes). -/
structure TtsResult where
  result : String
  written : Option (String × List Nat)
deriving Repr

/-- The fixed benign message for a response without audio payload
(tools.js line 143). -/
def noAudioMsg : String :=
  "No audio data was returned."

/-- The catch block of `generate_and_save_audio` (tools.js lines
187-190). -/
def genErrMsg (message : String) : String :=
  "An error occurred during audio generation: " ++ message

/-- Shallow embedding of the tool body of `generate_and_save_audio`
(tools.js lines 108-191) against an environment for its external
collaborators.  The whole body runs inside one try/catch with no
`finally`, so every path produces a returned string. -/
def generate_and_save_audio (env : TtsEnv) : TtsResult :=
  match env.mkdirError with
  | some m => ⟨genErrMsg m, none⟩
  | none =>
    match env.fetchError with
    | some m => ⟨genErrMsg m, none⟩
    | none =>
      match env.audioData, env.mimeType with
      | some pcmData, some mimeType =>
        if mimeType.data.isEmpty then ⟨noAudioMsg, none⟩
        else
          let sampleRate := deriveSampleRate mimeType
          let bitsPerSample := deriveBits mimeType
          let dataSize := pcmData.length
          let wavBuffer := wavHeaderBytes sampleRate bitsPerSample dataSize ++ pcmData
          let fileName := "audio_output_" ++ env.uuid ++ ".wav"
          let filePath := "sounds" ++ "/" ++ fileName
          match env.writeError with
          | some m => ⟨genErrMsg m, none⟩
          | none => ⟨"Audio successfully saved to: " ++ filePath, some (filePath, wavBuffer)⟩
      | _, _ => ⟨noAudioMsg, none⟩

/-! Auxiliary definitions used by the claim statements. -/

/-- The leading token of a statement in the sense of the specification
wording: the trimmed, lowercased statement up to the first whitespace
character. -/
def spec_leadingToken (s : String) : String :=
  String.mk ((jsToLower (jsTrim s)).data.takeWhile (fun c => !(jsIsWhitespace c)))

/-- Row rendering as the specification words it: every row is rendered
as `Row i: {col: val, col: val, ...}` with `i` counting from 1 on the
zero-based position `i`. -/
def spec_renderRow (i : Nat) (row : List (String × String)) : String :=
  "Row " ++ toString (i + 1) ++ ": \x7b" ++
    String.intercalate ", " (row.map (fun kv => kv.1 ++ ": " ++ kv.2)) ++ "\x7d"

/-- Substring occurrence test on character lists. -/
def hasSub (needle : List Char) : List Char → Bool
  | [] => needle.isEmpty
  | c :: rest => needle.isPrefixOf (c :: rest) || hasSub needle rest

/-- An insert statement used to exercise the insert branch. -/
def insertSample : String := "INSERT INTO cards (card_id) VALUES (0)"

/-- An eleven-row result set with a single column per row. -/
def rows11 : List (List (String × String)) := List.replicate 11 [("id", "1")]

/-- A database environment whose connection-release step
(`connection.end()`) rejects. -/
def envEndFail : DbEnv :=
  ⟨none, Except.ok (1, 1), Except.ok [], some ⟨"ECONNRESET", "end failed"⟩⟩

/-- A fully successful synthesis environment with one PCM byte. -/
def envTtsOk : TtsEnv := ⟨none, none, some [0], some "audio/L16;rate=24000", "abc", none⟩

/-! Helper lemmas about the embedded definitions. -/

lemma jsTruncMod_nonneg_lt (q : ℚ) (m : Nat) (hm : 0 < m) : jsTruncMod q m < m := by
  unfold jsTruncMod
  have hm' : (0 : ℤ) < (m : ℤ) := by exact_mod_cast hm
  have h1 : 0 ≤ (ratTrunc q) % (m : ℤ) := Int.emod_nonneg _ (by omega)
  have h2 : (ratTrunc q) % (m : ℤ) < (m : ℤ) := Int.emod_lt_of_pos _ hm'
  omega

lemma ratTrunc_natCast (n : Nat) : ratTrunc (n : ℚ) = (n : ℤ) := by
  unfold ratTrunc
  rw [if_neg (not_lt.mpr (Nat.cast_nonneg n)), Int.floor_natCast]

lemma jsTruncMod_natCast (n m : Nat) : jsTruncMod ((n : Nat) : ℚ) m = n % m := by
  unfold jsTruncMod
  rw [ratTrunc_natCast, ← Int.natCast_mod, Int.toNat_natCast]

lemma jsTruncMod_of_floor (q : ℚ) (n m : Nat) (h1 : ¬ q < 0) (h2 : ⌊q⌋ = (n : ℤ))
    (h3 : n < m) : jsTruncMod q m = n := by
  unfold jsTruncMod ratTrunc
  rw [if_neg h1, h2, ← Int.natCast_mod, Int.toNat_natCast]
  exact Nat.mod_eq_of_lt h3

lemma wavHeaderBytes_getD (sr b d j : Nat) (h : j < 44) :
    (wavHeaderBytes sr b d).getD j 0 = wavHeaderFun sr b d j := by
  simp [wavHeaderBytes, List.getD_eq_getElem?_getD, List.getElem?_map, List.getElem?_range h]

lemma wavHeaderBytes_length (sr b d : Nat) : (wavHeaderBytes sr b d).length = 44 := by
  simp [wavHeaderBytes]

/-- The block-align field (bytes 32-33) holds the ToUint16 image of the
JavaScript value `numChannels * bytesPerSample`. -/
lemma wav_blockAlign_field (sr b d : Nat) :
    leUint16At (wavHeaderBytes sr b d) 32 = jsTruncMod ((b : ℚ) / 8) 65536 := by
  have h32 := wavHeaderBytes_getD sr b d 32 (by omega)
  have h33 := wavHeaderBytes_getD sr b d 33 (by omega)
  have hv := jsTruncMod_nonneg_lt ((b : ℚ) / 8) 65536 (by omega)
  unfold leUint16At
  rw [h32, h33]
  simp only [wavHeaderFun, dvSetUint32BE, dvSetUint32LE, dvSetUint16LE, dvSetUint32LEQ,
    dvSetUint16LEQ, dvSet8, Nat.cast_one, one_mul]
  norm_num
  omega

/-- The byte-rate field (bytes 28-31) holds the ToUint32 image of the
JavaScript value `sampleRate * blockAlign`. -/
lemma wav_byteRate_field (sr b d : Nat) :
    leUint32At (wavHeaderBytes sr b d) 28 =
      jsTruncMod ((sr : ℚ) * ((b : ℚ) / 8)) 4294967296 := by
  have h28 := wavHeaderBytes_getD sr b d 28 (by omega)
  have h29 := wavHeaderBytes_getD sr b d 29 (by omega)
  have h30 := wavHeaderBytes_getD sr b d 30 (by omega)
  have h31 := wavHeaderBytes_getD sr b d 31 (by omega)
  have hv := jsTruncMod_nonneg_lt ((sr : ℚ) * ((b : ℚ) / 8)) 4294967296 (by omega)
  unfold leUint32At
  rw [h28, h29, h30, h31]
  simp only [wavHeaderFun, dvSetUint32BE, dvSetUint32LE, dvSetUint16LE, dvSetUint32LEQ,
    dvSetUint16LEQ, dvSet8, Nat.cast_one, one_mul]
  norm_num
  omega

lemma spec_renderRow_eq_formatRow : spec_renderRow = formatRow := rfl

lemma string_ne_of_take_ne (a b : String) (n : Nat)
    (h : a.data.take n ≠ b.data.take n) : a ≠ b := by
  intro he
  exact h (by rw [he])

/-! Claim C1. -/

/-- Claim C1 as frozen is refuted at the input "selectivity": its
trimmed lowercased leading token is not one of the four allowed
keywords, yet `run_mysql_query` does not return the refusal string, it
opens a connection and executes the statement, because the code checks
`startsWith`, a prefix test, not token equality. -/
theorem claim_C1_counterexample :
    spec_leadingToken "selectivity" ∉ (["select", "describe", "insert", "show"] : List String) ∧
    (run_mysql_query ⟨none, Except.ok (1, 1), Except.ok [], none⟩ "selectivity").1
      ≠ JsOutcome.ret allowRefusalMsg ∧
    (run_mysql_query ⟨none, Except.ok (1, 1), Except.ok [], none⟩ "selectivity").2
      = ⟨1, 1⟩ := by
  refine ⟨by decide, by decide, by decide⟩

/-- Claim C1 (amended): for every input string whose trimmed, lowercased
form does not start with one of select, describe, insert, show, the
Query Gateway's execute returns the fixed refusal string and performs no
database call: no connection is opened and nothing is executed. -/
theorem claim_C1 (env : DbEnv) (query : String)
    (h : allowedStart (jsToLower (jsTrim query)) = false) :
    run_mysql_query env query = (JsOutcome.ret allowRefusalMsg, ⟨0, 0⟩) := by
  unfold allowedStart at h
  simp only [Bool.or_eq_false_iff] at h
  obtain ⟨⟨⟨h1, h2⟩, h3⟩, h4⟩ := h
  unfold run_mysql_query
  simp [h1, h2, h3, h4]

/-- Witness for claim C1 at the concrete rejected input "DROP TABLE
users". -/
theorem claim_C1_witness :
    allowedStart (jsToLower (jsTrim "DROP TABLE users")) = false ∧
    run_mysql_query ⟨none, Except.ok (1, 1), Except.ok [], none⟩ "DROP TABLE users"
      = (JsOutcome.ret allowRefusalMsg, ⟨0, 0⟩) :=
  ⟨by decide, claim_C1 _ _ (by decide)⟩

/-! Claim C5. -/

lemma insertOkMsg_take (a i : Nat) :
    (insertOkMsg a i).data.take 29 = "Query executed successfully. ".data := by
  unfold insertOkMsg
  simp only [String.data_append, List.append_assoc]
  rw [List.take_append_of_le_length (by decide)]
  decide

lemma catchHandler_take (e : JsError) :
    (catchHandler e).data.take 1 ≠ "Q".data := by
  unfold catchHandler
  split
  · decide
  · split
    · decide
    · simp only [String.data_append, List.append_assoc]
      rw [List.take_append_of_le_length (by decide)]
      decide

lemma insertOkMsg_ne_insertZeroMsg (a i : Nat) : insertOkMsg a i ≠ insertZeroMsg := by
  apply string_ne_of_take_ne _ _ 29
  rw [insertOkMsg_take]
  decide

lemma insertOkMsg_ne_catchHandler (a i : Nat) (e : JsError) :
    insertOkMsg a i ≠ catchHandler e := by
  apply string_ne_of_take_ne _ _ 1
  intro he
  apply catchHandler_take e
  rw [← he]
  have h29 := insertOkMsg_take a i
  have h1 : (insertOkMsg a i).data.take 1 = ((insertOkMsg a i).data.take 29).take 1 := by
    rw [List.take_take]
    norm_num
  rw [h1, h29]
  decide

lemma insertZeroMsg_ne_catchHandler (e : JsError) : insertZeroMsg ≠ catchHandler e := by
  apply string_ne_of_take_ne _ _ 1
  intro he
  apply catchHandler_take e
  rw [← he]
  decide

/-- Claim C5: for an insert execution, the result with zero affected
rows differs from the result with three affected rows (for every insert
id), and both differ from the result of every caught database
exception. -/
theorem claim_C5 (i j : Nat) (e : JsError) :
    (run_mysql_query ⟨none, Except.ok (0, i), Except.ok [], none⟩ insertSample).1 ≠
      (run_mysql_query ⟨none, Except.ok (3, j), Except.ok [], none⟩ insertSample).1 ∧
    (run_mysql_query ⟨none, Except.ok (0, i), Except.ok [], none⟩ insertSample).1 ≠
      (run_mysql_query ⟨none, Except.error e, Except.ok [], none⟩ insertSample).1 ∧
    (run_mysql_query ⟨none, Except.ok (3, j), Except.ok [], none⟩ insertSample).1 ≠
      (run_mysql_query ⟨none, Except.error e, Except.ok [], none⟩ insertSample).1 := by
  have h0 : (run_mysql_query ⟨none, Except.ok (0, i), Except.ok [], none⟩ insertSample).1
      = JsOutcome.ret insertZeroMsg := rfl
  have h3 : (run_mysql_query ⟨none, Except.ok (3, j), Except.ok [], none⟩ insertSample).1
      = JsOutcome.ret (insertOkMsg 3 j) := rfl
  have he : (run_mysql_query ⟨none, Except.error e, Except.ok [], none⟩ insertSample).1
      = JsOutcome.ret (catchHandler e) := rfl
  rw [h0, h3, he]
  refine ⟨?_, ?_, ?_⟩
  · simp only [ne_eq, JsOutcome.ret.injEq]
    exact fun h => insertOkMsg_ne_insertZeroMsg 3 j h.symm
  · simp only [ne_eq, JsOutcome.ret.injEq]
    exact insertZeroMsg_ne_catchHandler e
  · simp only [ne_eq, JsOutcome.ret.injEq]
    exact insertOkMsg_ne_catchHandler 3 j e

/-! Claim C4. -/

/-- Claim C4 as frozen is refuted at an eleven-row result set: the
rendering does not contain the quoted omission string
"...and 6 more records." — the code writes a space after the ellipsis,
so the rendering contains "... and 6 more records." instead. -/
theorem claim_C4_counterexample :
    rows11.length = 11 ∧
    hasSub "...and 6 more records.".data (renderRows rows11).data = false ∧
    hasSub "... and 6 more records.".data (renderRows rows11).data = true := by
  refine ⟨by decide, by decide, by decide⟩

/-- Claim C4 (amended): for every select/describe/show execution, the
rendering of the fetched result set of N rows is: N = 0 → the fixed
no-results string; 1 ≤ N ≤ 10 → every row, in retrieval order, rendered
as `Row i: {col: val, col: val, ...}` with i counting from 1,
newline-joined and prefixed with the count N; N > 10 → exactly the
first 5 rows in the same format, with the total count N and a statement
of how many rows were omitted, so that N = 11 shows exactly 5 rows plus
"... and 6 more records." (with a space after the ellipsis). -/
theorem claim_C4 (rows : List (List (String × String))) :
    (run_mysql_query ⟨none, Except.ok (0, 0), Except.ok rows, none⟩ "select * from games").1
      = JsOutcome.ret (renderRows rows) ∧
    (rows.length = 0 → renderRows rows = noResultsMsg) ∧
    (1 ≤ rows.length → rows.length ≤ 10 →
      renderRows rows = "Found " ++ toString rows.length ++ " record(s):\n" ++
        String.intercalate "\n" (rows.enum.map (fun p => spec_renderRow p.1 p.2))) ∧
    (10 < rows.length →
      (rows.take 5).length = 5 ∧
      renderRows rows = "Found " ++ toString rows.length ++ " record(s). Showing first 5:\n" ++
        String.intercalate "\n" ((rows.take 5).enum.map (fun p => spec_renderRow p.1 p.2)) ++
        "\n... and " ++ toString (rows.length - 5) ++ " more records.") := by
  refine ⟨rfl, ?_, ?_, ?_⟩
  · intro h0
    unfold renderRows
    rw [if_pos h0]
  · intro h1 h10
    unfold renderRows
    rw [if_neg (by omega), if_pos h10, spec_renderRow_eq_formatRow]
  · intro hgt
    constructor
    · rw [List.length_take]
      omega
    · unfold renderRows
      rw [if_neg (by omega), if_neg (by omega), spec_renderRow_eq_formatRow]

/-- Witness for claim C4 at the concrete eleven-row result set. -/
theorem claim_C4_witness :
    10 < rows11.length ∧
    ((rows11.take 5).length = 5 ∧
      renderRows rows11 = "Found " ++ toString rows11.length ++ " record(s). Showing first 5:\n" ++
        String.intercalate "\n" ((rows11.take 5).enum.map (fun p => spec_renderRow p.1 p.2)) ++
        "\n... and " ++ toString (rows11.length - 5) ++ " more records.") :=
  ⟨by decide, (claim_C4 rows11).2.2.2 (by decide)⟩

/-! Claim C9. -/

/-- Claim C9 as frozen is refuted: when `connection.end()` rejects in
the guaranteed connection-release (`finally`) block, the error replaces
the pending return value and `run_mysql_query` rejects to its caller
instead of returning a string. -/
theorem claim_C9_counterexample :
    (run_mysql_query envEndFail "select 1").1
      = JsOutcome.thrown ⟨"ECONNRESET", "end failed"⟩ := by decide

/-- Claim C9 (amended): `generate_and_save_audio` always returns a
string (its whole body sits in one catch-all try/catch), and
`run_mysql_query` terminates with a returned descriptive string for
every input and every collaborator outcome in which the
connection-release step does not itself raise; an error raised by
`connection.end()` after a successful open instead propagates to the
caller. -/
theorem claim_C9 (env : DbEnv) (query : String) (tenv : TtsEnv)
    (h : env.endError = none) :
    (∃ s, (run_mysql_query env query).1 = JsOutcome.ret s) ∧
    (∃ s, generate_and_save_audio tenv = ⟨s, (generate_and_save_audio tenv).written⟩) := by
  constructor
  · obtain ⟨ce, io, qo, ee⟩ := env
    simp only at h
    subst h
    unfold run_mysql_query applyFinally
    dsimp only
    repeat' first
      | exact ⟨_, rfl⟩
      | split
  · exact ⟨(generate_and_save_audio tenv).result, rfl⟩

/-- Witness for claim C9 at a concrete environment whose
connection-release step succeeds. -/
theorem claim_C9_witness :
    (∃ s, (run_mysql_query ⟨none, Except.ok (1, 1), Except.ok [], none⟩ "show tables").1
        = JsOutcome.ret s) ∧
    (∃ s, generate_and_save_audio ⟨none, none, none, none, "u", none⟩
        = ⟨s, (generate_and_save_audio ⟨none, none, none, none, "u", none⟩).written⟩) :=
  claim_C9 ⟨none, Except.ok (1, 1), Except.ok [], none⟩ "show tables"
    ⟨none, none, none, none, "u", none⟩ rfl

/-! Success path of the speech container encoder. -/

lemma generate_success (env : TtsEnv) (pcm : List Nat) (mime : String)
    (h1 : env.mkdirError = none) (h2 : env.fetchError = none)
    (h3 : env.audioData = some pcm) (h4 : env.mimeType = some mime)
    (h5 : env.writeError = none) (h6 : mime.data.isEmpty = false) :
    generate_and_save_audio env =
      ⟨"Audio successfully saved to: " ++ ("sounds" ++ "/" ++ ("audio_output_" ++ env.uuid ++ ".wav")),
        some ("sounds" ++ "/" ++ ("audio_output_" ++ env.uuid ++ ".wav"),
          wavHeaderBytes (deriveSampleRate mime) (deriveBits mime) pcm.length ++ pcm)⟩ := by
  obtain ⟨me, fe, ad, mt, u, we⟩ := env
  simp only at h1 h2 h3 h4 h5
  subst h1
  subst h2
  subst h3
  subst h4
  subst h5
  unfold generate_and_save_audio
  simp [h6]

/-! Claim C7. -/

/-- Claim C7: for every synthesis response that contains no audio
payload, `generate_and_save_audio` returns the fixed "no audio" message
and writes no file; the outcome is an ordinary return, not a thrown
error. -/
theorem claim_C7 (env : TtsEnv)
    (h1 : env.mkdirError = none) (h2 : env.fetchError = none)
    (h3 : env.audioData = none) :
    generate_and_save_audio env = ⟨noAudioMsg, none⟩ := by
  obtain ⟨me, fe, ad, mt, u, we⟩ := env
  simp only at h1 h2 h3
  subst h1
  subst h2
  subst h3
  unfold generate_and_save_audio
  cases mt <;> rfl

/-- Witness for claim C7 at a concrete response without audio part. -/
theorem claim_C7_witness :
    generate_and_save_audio ⟨none, none, none, some "audio/L16;rate=24000", "u", none⟩
      = ⟨noAudioMsg, none⟩ :=
  claim_C7 ⟨none, none, none, some "audio/L16;rate=24000", "u", none⟩ rfl rfl rfl

/-! Claim C8. -/

/-- Claim C8 as frozen is refuted: on a successful synthesis the file
is written at path "sounds/audio_output_abc.wav", but the string
returned to the caller is not that path — it is a success message that
contains the path after the fixed prefix "Audio successfully saved
to: ". -/
theorem claim_C8_counterexample :
    ((generate_and_save_audio envTtsOk).written.map Prod.fst)
      = some "sounds/audio_output_abc.wav" ∧
    (generate_and_save_audio envTtsOk).result ≠ "sounds/audio_output_abc.wav" ∧
    (generate_and_save_audio envTtsOk).result
      = "Audio successfully saved to: " ++ "sounds/audio_output_abc.wav" := by
  refine ⟨by decide, by decide, by decide⟩

/-- Claim C8 (amended): for every successful synthesis, the string
returned by `generate_and_save_audio` is the fixed success prefix
"Audio successfully saved to: " followed by the path of the written
file, where that path is the output directory "sounds" joined with the
freshly generated filename `audio_output_<uuid>.wav`. -/
theorem claim_C8 (env : TtsEnv) (pcm : List Nat) (mime : String)
    (h1 : env.mkdirError = none) (h2 : env.fetchError = none)
    (h3 : env.audioData = some pcm) (h4 : env.mimeType = some mime)
    (h5 : env.writeError = none) (h6 : mime.data.isEmpty = false) :
    ∃ buf,
      (generate_and_save_audio env).written
        = some ("sounds" ++ "/" ++ ("audio_output_" ++ env.uuid ++ ".wav"), buf) ∧
      (generate_and_save_audio env).result
        = "Audio successfully saved to: " ++ ("sounds" ++ "/" ++ ("audio_output_" ++ env.uuid ++ ".wav")) := by
  rw [generate_success env pcm mime h1 h2 h3 h4 h5 h6]
  exact ⟨_, rfl, rfl⟩

/-- Witness for claim C8 at a concrete successful synthesis. -/
theorem claim_C8_witness :
    ∃ buf,
      (generate_and_save_audio ⟨none, none, some [0], some "audio/L16", "u", none⟩).written
        = some ("sounds" ++ "/" ++ ("audio_output_" ++ TtsEnv.uuid ⟨none, none, some [0], some "audio/L16", "u", none⟩ ++ ".wav"), buf) ∧
      (generate_and_save_audio ⟨none, none, some [0], some "audio/L16", "u", none⟩).result
        = "Audio successfully saved to: " ++ ("sounds" ++ "/" ++ ("audio_output_" ++ TtsEnv.uuid ⟨none, none, some [0], some "audio/L16", "u", none⟩ ++ ".wav")) :=
  claim_C8 ⟨none, none, some [0], some "audio/L16", "u", none⟩ [0] "audio/L16"
    rfl rfl rfl rfl rfl (by decide)

/-! Claim C6. -/

/-- Claim C6: the two fallbacks are independent — for every format
descriptor string in which the rate pattern yields no match, the
encoder derives sampleRate 24000 (whatever the bit-depth pattern
yields), and for every descriptor in which the bit-depth pattern yields
no match, it derives bitsPerSample 16 (whatever the rate pattern
yields); a call whose other collaborators succeed still completes with
the success message (no error). -/
theorem claim_C6 (mime : String) (env : TtsEnv) (pcm : List Nat)
    (h3 : env.mkdirError = none) (h4 : env.fetchError = none)
    (h5 : env.audioData = some pcm) (h6 : env.mimeType = some mime)
    (h7 : env.writeError = none) (h8 : mime.data.isEmpty = false) :
    (matchCapture "rate=".data mime.data = none → deriveSampleRate mime = 24000) ∧
    (matchCapture "audio/L".data mime.data = none → deriveBits mime = 16) ∧
    (generate_and_save_audio env).result =
      "Audio successfully saved to: " ++ ("sounds" ++ "/" ++ ("audio_output_" ++ env.uuid ++ ".wav")) := by
  refine ⟨?_, ?_, ?_⟩
  · intro h1
    unfold deriveSampleRate
    rw [h1]
  · intro h2
    unfold deriveBits
    rw [h2]
  · rw [generate_success env pcm mime h3 h4 h5 h6 h7 h8]

/-- Witness for claim C6, exercising each fallback independently: the
descriptor "audio/L16" lacks only the rate pattern and falls back to
24000 Hz while the declared bit depth 16 is parsed, and the descriptor
"rate=8000" lacks only the bit-depth pattern and falls back to 16 bits
while the declared rate 8000 is parsed; both calls complete with the
success message. -/
theorem claim_C6_witness :
    deriveSampleRate "audio/L16" = 24000 ∧ deriveBits "audio/L16" = 16 ∧
    deriveBits "rate=8000" = 16 ∧ deriveSampleRate "rate=8000" = 8000 ∧
    (generate_and_save_audio ⟨none, none, some [1, 2], some "audio/L16", "u", none⟩).result =
      "Audio successfully saved to: " ++ ("sounds" ++ "/" ++ ("audio_output_" ++
        TtsEnv.uuid ⟨none, none, some [1, 2], some "audio/L16", "u", none⟩ ++ ".wav")) ∧
    (generate_and_save_audio ⟨none, none, some [1, 2], some "rate=8000", "v", none⟩).result =
      "Audio successfully saved to: " ++ ("sounds" ++ "/" ++ ("audio_output_" ++
        TtsEnv.uuid ⟨none, none, some [1, 2], some "rate=8000", "v", none⟩ ++ ".wav")) :=
  ⟨(claim_C6 "audio/L16" ⟨none, none, some [1, 2], some "audio/L16", "u", none⟩ [1, 2]
      rfl rfl rfl rfl rfl (by decide)).1 (by decide),
   by decide,
   (claim_C6 "rate=8000" ⟨none, none, some [1, 2], some "rate=8000", "v", none⟩ [1, 2]
      rfl rfl rfl rfl rfl (by decide)).2.1 (by decide),
   by decide,
   (claim_C6 "audio/L16" ⟨none, none, some [1, 2], some "audio/L16", "u", none⟩ [1, 2]
      rfl rfl rfl rfl rfl (by decide)).2.2,
   (claim_C6 "rate=8000" ⟨none, none, some [1, 2], some "rate=8000", "v", none⟩ [1, 2]
      rfl rfl rfl rfl rfl (by decide)).2.2⟩

/-! Claim C2. -/

lemma wavBuf_getD (sr b d : Nat) (pcm : List Nat) (j : Nat) (hj : j < 44) :
    (wavHeaderBytes sr b d ++ pcm).getD j 0 = wavHeaderFun sr b d j := by
  rw [List.getD_append _ _ _ _ (by rw [wavHeaderBytes_length]; omega)]
  exact wavHeaderBytes_getD sr b d j hj

/-- Claim C2: for every PCM payload of N bytes whose format descriptor
derives sample rate 24000 and bit depth 16, the buffer written to the
file is exactly N + 44 bytes; its bytes at offsets 0-3 are the ASCII
tag "RIFF", at 8-11 "WAVE", at 36-39 "data"; the little-endian uint32
at offset 4 equals N + 36; the little-endian uint32 at offset 40 equals
N; and the raw PCM bytes follow the 44-byte header unchanged.  The size
bound `N + 36 < 2 ^ 32` keeps the stored chunk sizes from wrapping; any
buffer a JavaScript runtime can base64-decode satisfies it. -/
theorem claim_C2 (env : TtsEnv) (pcm : List Nat) (mime : String)
    (h1 : env.mkdirError = none) (h2 : env.fetchError = none)
    (h3 : env.audioData = some pcm) (h4 : env.mimeType = some mime)
    (h5 : deriveSampleRate mime = 24000) (h6 : deriveBits mime = 16)
    (h7 : env.writeError = none) (h8 : mime.data.isEmpty = false)
    (hN : pcm.length + 36 < 4294967296) :
    ∃ p buf,
      (generate_and_save_audio env).written = some (p, buf) ∧
      buf.length = pcm.length + 44 ∧
      buf.take 4 = "RIFF".data.map Char.toNat ∧
      (buf.drop 8).take 4 = "WAVE".data.map Char.toNat ∧
      (buf.drop 36).take 4 = "data".data.map Char.toNat ∧
      leUint32At buf 4 = pcm.length + 36 ∧
      leUint32At buf 40 = pcm.length ∧
      buf.drop 44 = pcm := by
  rw [generate_success env pcm mime h1 h2 h3 h4 h7 h8, h5, h6]
  refine ⟨_, _, rfl, ?_, ?_, ?_, ?_, ?_, ?_, ?_⟩
  · rw [List.length_append, wavHeaderBytes_length]
    omega
  · rfl
  · rfl
  · rfl
  · have b4 : (wavHeaderBytes 24000 16 pcm.length ++ pcm).getD 4 0
        = (36 + pcm.length) % 4294967296 % 256 := rfl
    have b5 : (wavHeaderBytes 24000 16 pcm.length ++ pcm).getD 5 0
        = (36 + pcm.length) % 4294967296 / 256 % 256 := rfl
    have b6 : (wavHeaderBytes 24000 16 pcm.length ++ pcm).getD 6 0
        = (36 + pcm.length) % 4294967296 / 65536 % 256 := rfl
    have b7 : (wavHeaderBytes 24000 16 pcm.length ++ pcm).getD 7 0
        = (36 + pcm.length) % 4294967296 / 16777216 % 256 := rfl
    unfold leUint32At
    simp only [Nat.reduceAdd]
    rw [b4, b5, b6, b7]
    omega
  · have b40 : (wavHeaderBytes 24000 16 pcm.length ++ pcm).getD 40 0
        = pcm.length % 4294967296 % 256 := rfl
    have b41 : (wavHeaderBytes 24000 16 pcm.length ++ pcm).getD 41 0
        = pcm.length % 4294967296 / 256 % 256 := rfl
    have b42 : (wavHeaderBytes 24000 16 pcm.length ++ pcm).getD 42 0
        = pcm.length % 4294967296 / 65536 % 256 := rfl
    have b43 : (wavHeaderBytes 24000 16 pcm.length ++ pcm).getD 43 0
        = pcm.length % 4294967296 / 16777216 % 256 := rfl
    unfold leUint32At
    simp only [Nat.reduceAdd]
    rw [b40, b41, b42, b43]
    omega
  · exact List.drop_left' (wavHeaderBytes_length 24000 16 pcm.length)

/-- Witness for claim C2 at a concrete three-byte PCM payload. -/
theorem claim_C2_witness :
    ∃ p buf,
      (generate_and_save_audio ⟨none, none, some [9, 8, 7], some "audio/L16;rate=24000", "u", none⟩).written
        = some (p, buf) ∧
      buf.length = [9, 8, 7].length + 44 ∧
      buf.take 4 = "RIFF".data.map Char.toNat ∧
      (buf.drop 8).take 4 = "WAVE".data.map Char.toNat ∧
      (buf.drop 36).take 4 = "data".data.map Char.toNat ∧
      leUint32At buf 4 = [9, 8, 7].length + 36 ∧
      leUint32At buf 40 = [9, 8, 7].length ∧
      buf.drop 44 = [9, 8, 7] :=
  claim_C2 ⟨none, none, some [9, 8, 7], some "audio/L16;rate=24000", "u", none⟩ [9, 8, 7]
    "audio/L16;rate=24000" rfl rfl rfl rfl (by decide) (by decide) rfl (by decide) (by decide)

/-! Claim C3. -/

/-- Claim C3 as frozen is refuted at the derivable bit depth 12 (format
descriptor "audio/L12"): the block-align field written at offset 32 is
the ToUint16 truncation 1 of the non-integral value
channels × bytesPerSample = 12 / 8, not that value itself. -/
theorem claim_C3_counterexample :
    deriveBits "audio/L12" = 12 ∧
    (leUint16At (wavHeaderBytes 24000 12 0) 32 : ℚ) ≠ (1 : ℚ) * ((12 : ℚ) / 8) := by
  have h1 : leUint16At (wavHeaderBytes 24000 12 0) 32 = 1 := by
    rw [wav_blockAlign_field]
    refine jsTruncMod_of_floor _ 1 _ (not_lt.mpr (by positivity)) ?_ (by norm_num)
    rw [Int.floor_eq_iff]
    constructor
    · push_cast
      norm_num
    · push_cast
      norm_num
  refine ⟨by decide, ?_⟩
  rw [h1]
  norm_num

/-- Claim C3 (amended): for every derived sampleRate and bitsPerSample
with bitsPerSample a multiple of 8 and the fields within their ranges
(bitsPerSample below 2 ^ 16, sampleRate and byte rate below 2 ^ 32),
the numeric fields of the 44-byte header are written little-endian with
the values: subchunk1 size 16 at offset 16, audio format 1 at offset
20, channel count 1 at offset 22, sample rate at offset 24, byte rate
sampleRate × channels × bytesPerSample at offset 28, block align
channels × bytesPerSample at offset 32, bits per sample at offset 34,
with bytesPerSample = bitsPerSample / 8; the four-character tags are
written as their literal ASCII bytes in declared order. -/
theorem claim_C3 (sr bits ds : Nat) (hdvd : 8 ∣ bits)
    (hbits : bits < 65536) (hsr : sr < 4294967296)
    (hbr : sr * (bits / 8) < 4294967296) :
    (wavHeaderBytes sr bits ds).take 4 = "RIFF".data.map Char.toNat ∧
    ((wavHeaderBytes sr bits ds).drop 8).take 4 = "WAVE".data.map Char.toNat ∧
    ((wavHeaderBytes sr bits ds).drop 12).take 4 = "fmt ".data.map Char.toNat ∧
    ((wavHeaderBytes sr bits ds).drop 36).take 4 = "data".data.map Char.toNat ∧
    leUint32At (wavHeaderBytes sr bits ds) 16 = 16 ∧
    leUint16At (wavHeaderBytes sr bits ds) 20 = 1 ∧
    leUint16At (wavHeaderBytes sr bits ds) 22 = 1 ∧
    leUint32At (wavHeaderBytes sr bits ds) 24 = sr ∧
    leUint32At (wavHeaderBytes sr bits ds) 28 = sr * 1 * (bits / 8) ∧
    leUint16At (wavHeaderBytes sr bits ds) 32 = 1 * (bits / 8) ∧
    leUint16At (wavHeaderBytes sr bits ds) 34 = bits := by
  obtain ⟨k, hk⟩ := hdvd
  subst hk
  have hk8 : (8 * k) / 8 = k := by omega
  rw [hk8] at hbr
  have hq : ((8 * k : ℕ) : ℚ) / 8 = ((k : ℕ) : ℚ) := by
    push_cast
    exact mul_div_cancel_left₀ _ (by norm_num)
  refine ⟨rfl, rfl, rfl, rfl, rfl, rfl, rfl, ?_, ?_, ?_, ?_⟩
  · have a24 : (wavHeaderBytes sr (8 * k) ds).getD 24 0
        = sr % 4294967296 % 256 := rfl
    have a25 : (wavHeaderBytes sr (8 * k) ds).getD 25 0
        = sr % 4294967296 / 256 % 256 := rfl
    have a26 : (wavHeaderBytes sr (8 * k) ds).getD 26 0
        = sr % 4294967296 / 65536 % 256 := rfl
    have a27 : (wavHeaderBytes sr (8 * k) ds).getD 27 0
        = sr % 4294967296 / 16777216 % 256 := rfl
    unfold leUint32At
    simp only [Nat.reduceAdd]
    rw [a24, a25, a26, a27]
    omega
  · rw [wav_byteRate_field, hq, hk8]
    have hc : (sr : ℚ) * ((k : ℕ) : ℚ) = ((sr * k : ℕ) : ℚ) := by
      push_cast
      ring
    rw [hc, jsTruncMod_natCast, Nat.mod_eq_of_lt hbr]
    ring
  · rw [wav_blockAlign_field, hq, hk8, jsTruncMod_natCast, Nat.mod_eq_of_lt (by omega)]
    omega
  · have a34 : (wavHeaderBytes sr (8 * k) ds).getD 34 0
        = (8 * k) % 65536 % 256 := rfl
    have a35 : (wavHeaderBytes sr (8 * k) ds).getD 35 0
        = (8 * k) % 65536 / 256 % 256 := rfl
    unfold leUint16At
    simp only [Nat.reduceAdd]
    rw [a34, a35]
    omega

/-- Witness for claim C3 at sampleRate 24000, bitsPerSample 16, five
data bytes. -/
theorem claim_C3_witness :
    (wavHeaderBytes 24000 16 5).take 4 = "RIFF".data.map Char.toNat ∧
    ((wavHeaderBytes 24000 16 5).drop 8).take 4 = "WAVE".data.map Char.toNat ∧
    ((wavHeaderBytes 24000 16 5).drop 12).take 4 = "fmt ".data.map Char.toNat ∧
    ((wavHeaderBytes 24000 16 5).drop 36).take 4 = "data".data.map Char.toNat ∧
    leUint32At (wavHeaderBytes 24000 16 5) 16 = 16 ∧
    leUint16At (wavHeaderBytes 24000 16 5) 20 = 1 ∧
    leUint16At (wavHeaderBytes 24000 16 5) 22 = 1 ∧
    leUint32At (wavHeaderBytes 24000 16 5) 24 = 24000 ∧
    leUint32At (wavHeaderBytes 24000 16 5) 28 = 24000 * 1 * (16 / 8) ∧
    leUint16At (wavHeaderBytes 24000 16 5) 32 = 1 * (16 / 8) ∧
    leUint16At (wavHeaderBytes 24000 16 5) 34 = 16 :=
  claim_C3 24000 16 5 (by decide) (by decide) (by decide) (by decide)

/-! Claim C10. -/

/-- Claim C10: the encoder divides the derived bit depth by 8 without a
divisibility check (bit depth 12 is derivable from "audio/L12"), and
whenever the bit depth is not a multiple of 8 the block-align field
actually written — a byte-level truncated integer — differs from the
specified value channels × bytesPerSample, i.e. the header-field
equalities hold only under the unstated precondition
bitsPerSample mod 8 = 0. -/
theorem claim_C10 (sr bits ds : Nat) (h : ¬ (8 ∣ bits)) :
    deriveBits "audio/L12" = 12 ∧ ¬ (8 ∣ (12 : Nat)) ∧
    (leUint16At (wavHeaderBytes sr bits ds) 32 : ℚ) ≠ (1 : ℚ) * ((bits : ℚ) / 8) := by
  refine ⟨by decide, by decide, ?_⟩
  intro heq
  rw [one_mul] at heq
  have hden : (bits : ℚ) = (leUint16At (wavHeaderBytes sr bits ds) 32 : ℚ) * 8 :=
    (div_eq_iff (by norm_num : (8 : ℚ) ≠ 0)).mp heq.symm
  have hb : bits = leUint16At (wavHeaderBytes sr bits ds) 32 * 8 := by
    exact_mod_cast hden
  exact h ⟨leUint16At (wavHeaderBytes sr bits ds) 32, by omega⟩

/-- Witness for claim C10 at the non-multiple bit depth 12. -/
theorem claim_C10_witness :
    deriveBits "audio/L12" = 12 ∧ ¬ (8 ∣ (12 : Nat)) ∧
    (leUint16At (wavHeaderBytes 24000 12 0) 32 : ℚ) ≠ (1 : ℚ) * ((12 : ℚ) / 8) :=
  claim_C10 24000 12 0 (by decide)
